import Mathlib

/-!
Verification of the pathmaster repository: a single function
`get_executable_path` (src/include/pathmaster/pathmaster.hpp) with three
mutually exclusive platform branches (GNU/Linux symlink read, MacOS dynamic
buffer query, Windows fixed large buffer query) plus an unsupported-platform
fallback, and a self-test executable (src/tests/pathmaster_test.cpp).

The shallow embedding models:
- `std::filesystem::path` as `FsPath` (root flag plus component list);
- C++ exceptions as `Except String` where the `String` is the `what()` text;
- the OS primitives consumed by the code (`read_symlink` on /proc/self/exe,
  `_NSGetExecutablePath`, `GetModuleFileNameW`, `std::filesystem::canonical`)
  as an oracle environment `Env`, since these are external collaborators the
  code calls, not code of this repository;
- each preprocessor branch of `get_executable_path` as a Lean function over
  `Env`, with the try/catch wrapping made explicit.
-/

namespace Pathmaster

/-- Shallow model of `std::filesystem::path`: whether the path has a root,
and its component list. An empty path has no root and no components. -/
structure FsPath where
  hasRoot : Bool
  components : List String
deriving DecidableEq, Repr

/-- Model of `std::filesystem::path::is_absolute` (POSIX-style: has a root). -/
def FsPath.is_absolute (p : FsPath) : Bool := p.hasRoot

/-- Model of `std::filesystem::path::filename`: the last component, or the
empty string for an empty path. -/
def FsPath.filename (p : FsPath) : String := (p.components.getLast?).getD ""

/-- A path has no "." or ".." segments. -/
def FsPath.noDotSegments (p : FsPath) : Bool :=
  !(p.components.contains "." || p.components.contains "..")

/-- A canonical path: absolute and free of "." / ".." segments, matching the
spec glossary for canonicalization. -/
def isCanonicalPath (p : FsPath) : Bool := p.is_absolute && p.noDotSegments

/-- Result of one `_NSGetExecutablePath` call: `ok raw` means the call
returned 0 and wrote the raw path `raw` into the buffer; `tooSmall required`
means it returned -1 and stored the required size into `*size`. -/
inductive NSRes where
  | ok (raw : String)
  | tooSmall (required : Nat)
deriving DecidableEq, Repr

/-- `PATH_MAX` from sys/syslimits.h, the initial MacOS buffer size. -/
def PATH_MAX : Nat := 1024

/-- Oracle environment: the OS / standard-library primitives the function
consumes. Each is external to the repository (the code treats them as opaque
platform primitives). Exceptions thrown by a primitive are modelled as
`Except.error w` with `w` the `what()` text of the thrown exception.

- `readSymlink`: outcome of `std::filesystem::read_symlink("/proc/self/exe")`;
- `nsGet i size`: outcome of the (i+1)-th `_NSGetExecutablePath` call in this
  invocation, made with a buffer of capacity `size`;
- `moduleLen` / `moduleStr`: the DWORD returned by `GetModuleFileNameW` and
  the string of that many characters it wrote into the buffer;
- `canonical`: outcome of `std::filesystem::canonical` on a raw path string. -/
structure Env where
  readSymlink : Except String String
  nsGet : Nat → Nat → NSRes
  moduleLen : Nat
  moduleStr : String
  canonical : String → Except String FsPath

/-- The `PathMasterError` constructor: its `what()` message is the given
message with the literal prefix "PathMasterError: " prepended. -/
def PathMasterError (message : String) : String :=
  "PathMasterError: " ++ message

/-- The `catch (const std::exception &e)` handler shared in shape by all
three branches: a successful try body is returned unchanged; an exception
with `what()` text `w` is re-thrown as `PathMasterError (label ++ w)`. -/
def rethrow (label : String) (x : Except String FsPath) : Except String FsPath :=
  match x with
  | .ok p => .ok p
  | .error w => .error (PathMasterError (label ++ w))

/-- Body of the `try` block of the `__linux__` branch:
`std::filesystem::canonical(std::filesystem::read_symlink("/proc/self/exe"))`.
An exception from either primitive propagates out of the block. -/
def linux_attempt (env : Env) : Except String FsPath :=
  match env.readSymlink with
  | .error w => .error w
  | .ok link => env.canonical link

/-- The `__linux__` branch of `get_executable_path`: the try body, with any
exception caught and re-thrown as `PathMasterError` with the cause appended. -/
def get_executable_path_linux (env : Env) : Except String FsPath :=
  rethrow "Failed to get the executable path on GNU/Linux: " (linux_attempt env)

/-- Body of the `try` block of the `__APPLE__` branch: call
`_NSGetExecutablePath` with a PATH_MAX buffer; on nonzero return, resize the
buffer to the reported required size and call once more; if that also returns
nonzero, throw `PathMasterError` (whose message, prefix included, propagates
to the catch); on success canonicalize the raw buffer contents. -/
def apple_attempt (env : Env) : Except String FsPath :=
  match env.nsGet 0 PATH_MAX with
  | .ok raw => env.canonical raw
  | .tooSmall required =>
      match env.nsGet 1 required with
      | .ok raw => env.canonical raw
      | .tooSmall _ =>
          .error (PathMasterError "Failed to get the executable path on MacOS after resizing the buffer")

/-- The `__APPLE__` branch of `get_executable_path`: the try body, with any
exception (the internal `PathMasterError` included) caught and re-thrown
wrapped in the canonicalization-step message. -/
def get_executable_path_apple (env : Env) : Except String FsPath :=
  rethrow "Failed to canonicalize the path on MacOS: " (apple_attempt env)

/-- Body of the `try` block of the `_WIN32` branch: call `GetModuleFileNameW`
with a 32767-character buffer; throw `PathMasterError` on a zero-length
result, otherwise canonicalize the path built from the written characters. -/
def windows_attempt (env : Env) : Except String FsPath :=
  if env.moduleLen = 0 then
    .error (PathMasterError "Failed to get the executable path on Windows")
  else
    env.canonical env.moduleStr

/-- The `_WIN32` branch of `get_executable_path`: the try body, with any
exception (the internal `PathMasterError` included) caught and re-thrown
wrapped in the canonicalization-step message. -/
def get_executable_path_windows (env : Env) : Except String FsPath :=
  rethrow "Failed to canonicalize the path on Windows: " (windows_attempt env)

/-- The target platform selected at build time: exactly one branch of the
`#if` chain compiles into the binary. -/
inductive Platform where
  | linux
  | apple
  | windows
  | other
deriving DecidableEq, Repr

/-- `pathmaster::get_executable_path`, the preprocessor branch selected by
the build platform; the `#else` branch throws "Unsupported platform". -/
def get_executable_path (plat : Platform) (env : Env) : Except String FsPath :=
  match plat with
  | .linux => get_executable_path_linux env
  | .apple => get_executable_path_apple env
  | .windows => get_executable_path_windows env
  | .other => .error (PathMasterError "Unsupported platform")

/-- Instrumented version of `apple_attempt` that additionally counts the
number of `_NSGetExecutablePath` calls and of `buffer.resize` operations
performed; the control flow is that of the source branch. -/
def apple_attempt_counted (env : Env) : Except String FsPath × Nat × Nat :=
  match env.nsGet 0 PATH_MAX with
  | .ok raw => (env.canonical raw, 1, 0)
  | .tooSmall required =>
      match env.nsGet 1 required with
      | .ok raw => (env.canonical raw, 2, 1)
      | .tooSmall _ =>
          (.error (PathMasterError "Failed to get the executable path on MacOS after resizing the buffer"), 2, 1)

/-- Contract of the consumed `std::filesystem::canonical` primitive (spec
glossary: resolve to absolute form, all symlinks and relative segments
eliminated): every path it returns successfully is canonical. -/
def CanonicalOk (c : String → Except String FsPath) : Prop :=
  ∀ s p, c s = .ok p → isCanonicalPath p = true

/-- `EXIT_FAILURE` from cstdlib. -/
def EXIT_FAILURE : Nat := 1

/-- `main` of src/tests/pathmaster_test.cpp, given the path the resolver
returned: exits 0 when the filename component equals "pathmaster_test",
`EXIT_FAILURE` otherwise (printing is I/O and not modelled). -/
def pathmaster_test_main (executable_path : FsPath) : Nat :=
  if executable_path.filename = "pathmaster_test" then 0 else EXIT_FAILURE

/-- The oracle fields an invocation on a given platform actually consults:
two environments related here are indistinguishable to that branch. -/
def relevantOracles : Platform → Env → Env → Prop
  | .linux, e1, e2 => e1.readSymlink = e2.readSymlink ∧ e1.canonical = e2.canonical
  | .apple, e1, e2 => e1.nsGet = e2.nsGet ∧ e1.canonical = e2.canonical
  | .windows, e1, e2 =>
      e1.moduleLen = e2.moduleLen ∧ e1.moduleStr = e2.moduleStr ∧ e1.canonical = e2.canonical
  | .other, _, _ => True

lemma rethrow_ok_iff (label : String) (x : Except String FsPath) (p : FsPath) :
    rethrow label x = .ok p ↔ x = .ok p := by
  cases x with
  | ok q => simp [rethrow]
  | error w => simp [rethrow]

lemma rethrow_error_shape (label : String) (x : Except String FsPath) (m : String)
    (h : rethrow label x = .error m) :
    ∃ w, x = .error w ∧ m = PathMasterError (label ++ w) := by
  cases x with
  | ok q => simp [rethrow] at h
  | error w =>
      refine ⟨w, rfl, ?_⟩
      simp [rethrow] at h
      exact h.symm

lemma rethrow_error_of (label : String) (x : Except String FsPath) (w : String)
    (h : x = .error w) :
    rethrow label x = .error (PathMasterError (label ++ w)) := by
  rw [h]; rfl

/-- Every successful result of any branch is a value returned by the
canonicalization primitive: the raw OS path is never returned directly. -/
lemma ok_from_canonical (plat : Platform) (env : Env) (p : FsPath)
    (h : get_executable_path plat env = .ok p) :
    ∃ s, env.canonical s = .ok p := by
  cases plat with
  | linux =>
      rw [show get_executable_path .linux env = get_executable_path_linux env from rfl,
        get_executable_path_linux, rethrow_ok_iff, linux_attempt] at h
      cases hr : env.readSymlink with
      | error w => rw [hr] at h; simp at h
      | ok link => rw [hr] at h; exact ⟨link, h⟩
  | apple =>
      rw [show get_executable_path .apple env = get_executable_path_apple env from rfl,
        get_executable_path_apple, rethrow_ok_iff, apple_attempt] at h
      cases h0 : env.nsGet 0 PATH_MAX with
      | ok raw => rw [h0] at h; exact ⟨raw, h⟩
      | tooSmall required =>
          rw [h0] at h
          dsimp only at h
          cases h1 : env.nsGet 1 required with
          | ok raw => rw [h1] at h; exact ⟨raw, h⟩
          | tooSmall r2 => rw [h1] at h; simp at h
  | windows =>
      rw [show get_executable_path .windows env = get_executable_path_windows env from rfl,
        get_executable_path_windows, rethrow_ok_iff, windows_attempt] at h
      by_cases hl : env.moduleLen = 0
      · rw [if_pos hl] at h; simp at h
      · rw [if_neg hl] at h; exact ⟨env.moduleStr, h⟩
  | other => simp [get_executable_path] at h

/-- Every error any branch produces is a `PathMasterError`: its message
carries the literal "PathMasterError: " prefix. -/
lemma error_prefixed (plat : Platform) (env : Env) (m : String)
    (h : get_executable_path plat env = .error m) :
    ∃ r, m = "PathMasterError: " ++ r := by
  cases plat with
  | linux =>
      obtain ⟨w, -, hm⟩ := rethrow_error_shape _ _ _ h
      exact ⟨_, hm⟩
  | apple =>
      obtain ⟨w, -, hm⟩ := rethrow_error_shape _ _ _ h
      exact ⟨_, hm⟩
  | windows =>
      obtain ⟨w, -, hm⟩ := rethrow_error_shape _ _ _ h
      exact ⟨_, hm⟩
  | other =>
      simp only [get_executable_path] at h
      exact ⟨"Unsupported platform", by
        cases h
        rfl⟩

lemma linux_attempt_symlink_err (env : Env) (w : String)
    (hr : env.readSymlink = .error w) : linux_attempt env = .error w := by
  simp [linux_attempt, hr]

lemma linux_attempt_symlink_ok (env : Env) (link : String)
    (hr : env.readSymlink = .ok link) : linux_attempt env = env.canonical link := by
  simp [linux_attempt, hr]

lemma apple_attempt_first_ok (env : Env) (raw : String)
    (h0 : env.nsGet 0 PATH_MAX = .ok raw) : apple_attempt env = env.canonical raw := by
  simp [apple_attempt, h0]

lemma apple_attempt_retry_ok (env : Env) (required : Nat) (raw : String)
    (h0 : env.nsGet 0 PATH_MAX = .tooSmall required)
    (h1 : env.nsGet 1 required = .ok raw) : apple_attempt env = env.canonical raw := by
  simp [apple_attempt, h0, h1]

lemma apple_attempt_both_fail (env : Env) (required r2 : Nat)
    (h0 : env.nsGet 0 PATH_MAX = .tooSmall required)
    (h1 : env.nsGet 1 required = .tooSmall r2) :
    apple_attempt env =
      .error (PathMasterError "Failed to get the executable path on MacOS after resizing the buffer") := by
  simp [apple_attempt, h0, h1]

lemma windows_attempt_zero (env : Env) (hl : env.moduleLen = 0) :
    windows_attempt env =
      .error (PathMasterError "Failed to get the executable path on Windows") := by
  simp [windows_attempt, hl]

lemma windows_attempt_pos (env : Env) (hl : env.moduleLen ≠ 0) :
    windows_attempt env = env.canonical env.moduleStr := by
  simp [windows_attempt, hl]

/-- The result of an invocation depends only on the oracles the selected
branch consults: the operation keeps no state of its own. -/
lemma get_depends_only_on_oracles (plat : Platform) (e1 e2 : Env)
    (h : relevantOracles plat e1 e2) :
    get_executable_path plat e1 = get_executable_path plat e2 := by
  cases plat with
  | linux =>
      obtain ⟨h1, h2⟩ := h
      simp only [get_executable_path, get_executable_path_linux, linux_attempt, h1, h2]
  | apple =>
      obtain ⟨h1, h2⟩ := h
      simp only [get_executable_path, get_executable_path_apple, apple_attempt, h1, h2]
  | windows =>
      obtain ⟨h1, h2, h3⟩ := h
      simp only [get_executable_path, get_executable_path_windows, windows_attempt, h1, h2, h3]
  | other => rfl

/-- A fixed canonical path used by the concrete test environments. -/
def cpath0 : FsPath := ⟨true, ["usr", "local", "bin", "pathmaster_test"]⟩

/-- A concrete canonicalization oracle that always succeeds with `cpath0`. -/
def canonicalConst : String → Except String FsPath := fun _ => .ok cpath0

lemma canonicalConst_ok : CanonicalOk canonicalConst := by
  intro s p h
  simp only [canonicalConst] at h
  injection h with h2
  subst h2
  decide

/-- A concrete environment where every primitive succeeds first try. -/
def envLinux1 : Env where
  readSymlink := .ok "/opt/app/bin/tool"
  nsGet := fun _ _ => .ok "/raw/apple"
  moduleLen := 4
  moduleStr := "C:/x.exe"
  canonical := canonicalConst

/-- Environment where both `_NSGetExecutablePath` attempts fail. -/
def envAppleFail : Env := { envLinux1 with nsGet := fun _ _ => .tooSmall 2048 }

/-- Environment where the first `_NSGetExecutablePath` attempt reports a
required size of 2048 and the retry succeeds. -/
def envAppleRetryOk : Env :=
  { envLinux1 with nsGet := fun i _ => if i = 0 then .tooSmall 2048 else .ok "/raw/retry" }

/-- Environment where `GetModuleFileNameW` returns length 0. -/
def envWinZero : Env := { envLinux1 with moduleLen := 0 }

/-- Environment where the /proc/self/exe symlink read throws. -/
def envLinuxBoom : Env := { envLinux1 with readSymlink := .error "boom" }

/-- Same as `envLinux1` except in a field the Linux branch never reads. -/
def envIrrelevant : Env := { envLinux1 with moduleLen := 7 }

/-- C1: on every platform branch and failure mode, `get_executable_path`
either throws a single error kind (a `PathMasterError` message) or returns a
path produced by the canonicalization primitive, hence canonical — never a
partial, empty, or non-canonical result. -/
theorem c1_total_one_error_kind (plat : Platform) (env : Env)
    (hc : CanonicalOk env.canonical) :
    (∀ m, get_executable_path plat env = .error m → ∃ r, m = "PathMasterError: " ++ r) ∧
    (∀ p, get_executable_path plat env = .ok p →
      isCanonicalPath p = true ∧ ∃ s, env.canonical s = .ok p) := by
  constructor
  · intro m h
    exact error_prefixed plat env m h
  · intro p h
    obtain ⟨s, hs⟩ := ok_from_canonical plat env p h
    exact ⟨hc s p hs, s, hs⟩

/-- Witness for C1 at a concrete Linux environment. -/
theorem c1_witness :
    CanonicalOk envLinux1.canonical ∧
    ((∀ m, get_executable_path .linux envLinux1 = .error m →
        ∃ r, m = "PathMasterError: " ++ r) ∧
     (∀ p, get_executable_path .linux envLinux1 = .ok p →
        isCanonicalPath p = true ∧ ∃ s, envLinux1.canonical s = .ok p)) :=
  ⟨canonicalConst_ok, c1_total_one_error_kind .linux envLinux1 canonicalConst_ok⟩

/-- C2 counterexample: with both `_NSGetExecutablePath` attempts failing (a
pure OS-query failure, the canonicalization primitive is never consulted),
the thrown message is nevertheless labeled, outermost, as a canonicalization
failure — refuting that an OS-query failure is never labeled as one. -/
theorem c2_counterexample :
    envAppleFail.nsGet 0 PATH_MAX = NSRes.tooSmall 2048 ∧
    envAppleFail.nsGet 1 2048 = NSRes.tooSmall 2048 ∧
    get_executable_path .apple envAppleFail =
      .error "PathMasterError: Failed to canonicalize the path on MacOS: PathMasterError: Failed to get the executable path on MacOS after resizing the buffer" :=
  ⟨rfl, rfl, rfl⟩

/-- C2 (amended): every failure message carries the description of the
failing step innermost and appends the underlying error text, but on the
Apple and Windows branches an OS-query failure is re-wrapped by the outer
handler and so additionally carries the canonicalization-step label. -/
theorem c2_step_messages (env : Env) :
    (∀ w, env.readSymlink = .error w →
       get_executable_path .linux env =
         .error ("PathMasterError: " ++
           ("Failed to get the executable path on GNU/Linux: " ++ w))) ∧
    (∀ raw w, env.nsGet 0 PATH_MAX = .ok raw → env.canonical raw = .error w →
       get_executable_path .apple env =
         .error ("PathMasterError: " ++
           ("Failed to canonicalize the path on MacOS: " ++ w))) ∧
    (∀ required r2, env.nsGet 0 PATH_MAX = .tooSmall required →
       env.nsGet 1 required = .tooSmall r2 →
       get_executable_path .apple env =
         .error ("PathMasterError: " ++ ("Failed to canonicalize the path on MacOS: " ++
           ("PathMasterError: " ++
             "Failed to get the executable path on MacOS after resizing the buffer")))) ∧
    (env.moduleLen = 0 →
       get_executable_path .windows env =
         .error ("PathMasterError: " ++ ("Failed to canonicalize the path on Windows: " ++
           ("PathMasterError: " ++ "Failed to get the executable path on Windows")))) := by
  refine ⟨?_, ?_, ?_, ?_⟩
  · intro w hw
    exact rethrow_error_of _ _ _ (linux_attempt_symlink_err env w hw)
  · intro raw w h0 hcw
    exact rethrow_error_of _ _ _ ((apple_attempt_first_ok env raw h0).trans hcw)
  · intro required r2 h0 h1
    exact rethrow_error_of _ _ _ (apple_attempt_both_fail env required r2 h0 h1)
  · intro hl
    exact rethrow_error_of _ _ _ (windows_attempt_zero env hl)

/-- Witness for C2 (amended) at a concrete failing symlink read. -/
theorem c2_witness :
    envLinuxBoom.readSymlink = .error "boom" ∧
    get_executable_path .linux envLinuxBoom =
      .error ("PathMasterError: " ++
        ("Failed to get the executable path on GNU/Linux: " ++ "boom")) :=
  ⟨rfl, (c2_step_messages envLinuxBoom).1 "boom" rfl⟩

/-- C3: the Apple branch queries `_NSGetExecutablePath` at most twice and
resizes at most once; on a first-attempt success it queries exactly once
with no resize; on a first-attempt failure it resizes exactly once, retries
exactly once with the reported size, and if the retry also fails it throws
`PathMasterError` instead of looping. -/
theorem c3_at_most_two_queries (env : Env) :
    (apple_attempt_counted env).1 = apple_attempt env ∧
    (apple_attempt_counted env).2.1 ≤ 2 ∧
    (apple_attempt_counted env).2.2 ≤ 1 ∧
    (∀ raw, env.nsGet 0 PATH_MAX = .ok raw → (apple_attempt_counted env).2 = (1, 0)) ∧
    (∀ required, env.nsGet 0 PATH_MAX = .tooSmall required →
       (apple_attempt_counted env).2 = (2, 1) ∧
       ∀ r2, env.nsGet 1 required = .tooSmall r2 →
         get_executable_path .apple env =
           .error (PathMasterError ("Failed to canonicalize the path on MacOS: " ++
             PathMasterError
               "Failed to get the executable path on MacOS after resizing the buffer"))) := by
  cases h0 : env.nsGet 0 PATH_MAX with
  | ok raw =>
      refine ⟨?_, ?_, ?_, ?_, ?_⟩
      · simp [apple_attempt_counted, apple_attempt, h0]
      · simp [apple_attempt_counted, h0]
      · simp [apple_attempt_counted, h0]
      · intro raw2 h2
        simp [apple_attempt_counted, h0]
      · intro required h2
        cases h2
  | tooSmall required =>
      have hcnt : (apple_attempt_counted env).2 = (2, 1) := by
        cases h1 : env.nsGet 1 required with
        | ok raw => simp [apple_attempt_counted, h0, h1]
        | tooSmall r2 => simp [apple_attempt_counted, h0, h1]
      refine ⟨?_, ?_, ?_, ?_, ?_⟩
      · cases h1 : env.nsGet 1 required with
        | ok raw => simp [apple_attempt_counted, apple_attempt, h0, h1]
        | tooSmall r2 => simp [apple_attempt_counted, apple_attempt, h0, h1]
      · rw [hcnt]
      · rw [hcnt]
      · intro raw2 h2
        cases h2
      · intro required2 h2
        injection h2 with h2
        subst h2
        refine ⟨hcnt, ?_⟩
        intro r2 h3
        exact rethrow_error_of _ _ _ (apple_attempt_both_fail env required r2 h0 h3)

/-- Witness for C3 at a concrete environment where both attempts fail. -/
theorem c3_witness :
    envAppleFail.nsGet 0 PATH_MAX = NSRes.tooSmall 2048 ∧
    (apple_attempt_counted envAppleFail).2 = (2, 1) ∧
    envAppleFail.nsGet 1 2048 = NSRes.tooSmall 2048 ∧
    get_executable_path .apple envAppleFail =
      .error (PathMasterError ("Failed to canonicalize the path on MacOS: " ++
        PathMasterError
          "Failed to get the executable path on MacOS after resizing the buffer")) :=
  ⟨rfl, ((c3_at_most_two_queries envAppleFail).2.2.2.2 2048 rfl).1, rfl,
    ((c3_at_most_two_queries envAppleFail).2.2.2.2 2048 rfl).2 2048 rfl⟩

/-- A resolved path whose filename carries the Windows executable suffix. -/
def exePathWin : FsPath := ⟨true, ["C:", "Users", "build", "pathmaster_test.exe"]⟩

/-- A resolved path whose filename is literally "pathmaster_test". -/
def exePathPlain : FsPath := ⟨true, ["home", "build", "pathmaster_test"]⟩

/-- C4 counterexample: for a binary named "pathmaster_test.exe" the test
compares the raw filename against "pathmaster_test" without stripping the
suffix, so it exits with `EXIT_FAILURE` (= 1), not with the claimed 0. -/
theorem c4_counterexample :
    exePathWin.filename = "pathmaster_test.exe" ∧
    pathmaster_test_main exePathWin = EXIT_FAILURE ∧
    EXIT_FAILURE = 1 := by
  decide

/-- C4 (amended): the self-test exits 0 exactly when the filename component
is literally "pathmaster_test"; no suffix is stripped or ignored, so any
other filename — "pathmaster_test.exe" included — exits `EXIT_FAILURE`. -/
theorem c4_filename_exact_match (p : FsPath) :
    (p.filename = "pathmaster_test" → pathmaster_test_main p = 0) ∧
    (p.filename ≠ "pathmaster_test" → pathmaster_test_main p = EXIT_FAILURE) := by
  constructor
  · intro h
    simp [pathmaster_test_main, h]
  · intro h
    simp [pathmaster_test_main, h]

/-- Witness for C4 (amended) at a concrete matching filename. -/
theorem c4_witness :
    exePathPlain.filename = "pathmaster_test" ∧
    pathmaster_test_main exePathPlain = 0 :=
  ⟨by decide, (c4_filename_exact_match exePathPlain).1 (by decide)⟩

/-- C5: on every platform branch, a successful result is absolute, has no
"." or ".." segments, and was produced by the canonicalization primitive
applied to the raw OS-provided path — the raw path is never returned. -/
theorem c5_success_canonical (plat : Platform) (env : Env)
    (hc : CanonicalOk env.canonical) (p : FsPath)
    (h : get_executable_path plat env = .ok p) :
    p.is_absolute = true ∧ p.noDotSegments = true ∧ ∃ s, env.canonical s = .ok p := by
  obtain ⟨s, hs⟩ := ok_from_canonical plat env p h
  have hcp := hc s p hs
  simp only [isCanonicalPath, Bool.and_eq_true] at hcp
  exact ⟨hcp.1, hcp.2, s, hs⟩

/-- Witness for C5 on the Apple branch after a successful retry. -/
theorem c5_witness :
    CanonicalOk envAppleRetryOk.canonical ∧
    get_executable_path .apple envAppleRetryOk = .ok cpath0 ∧
    (cpath0.is_absolute = true ∧ cpath0.noDotSegments = true ∧
      ∃ s, envAppleRetryOk.canonical s = .ok cpath0) :=
  ⟨canonicalConst_ok, rfl,
    c5_success_canonical .apple envAppleRetryOk canonicalConst_ok cpath0 rfl⟩

/-- C6: on any unsupported platform the function immediately throws
`PathMasterError` with the "Unsupported platform" message; being an error,
the result is never a partially constructed or empty path. -/
theorem c6_unsupported_platform (env : Env) :
    get_executable_path .other env = .error (PathMasterError "Unsupported platform") :=
  rfl

/-- C7: the Linux branch reads the /proc/self/exe symlink and then
canonicalizes its target; a failure of either step is re-thrown as
`PathMasterError` with the text of the underlying cause appended. -/
theorem c7_linux_algorithm (env : Env) :
    (∀ link p, env.readSymlink = .ok link → env.canonical link = .ok p →
       get_executable_path .linux env = .ok p) ∧
    (∀ w, env.readSymlink = .error w →
       get_executable_path .linux env =
         .error (PathMasterError ("Failed to get the executable path on GNU/Linux: " ++ w))) ∧
    (∀ link w, env.readSymlink = .ok link → env.canonical link = .error w →
       get_executable_path .linux env =
         .error (PathMasterError ("Failed to get the executable path on GNU/Linux: " ++ w))) := by
  refine ⟨?_, ?_, ?_⟩
  · intro link p hr hc
    exact (rethrow_ok_iff _ _ _).mpr ((linux_attempt_symlink_ok env link hr).trans hc)
  · intro w hw
    exact rethrow_error_of _ _ _ (linux_attempt_symlink_err env w hw)
  · intro link w hr hc
    exact rethrow_error_of _ _ _ ((linux_attempt_symlink_ok env link hr).trans hc)

/-- Witness for C7 at a concrete successful Linux environment. -/
theorem c7_witness :
    envLinux1.readSymlink = .ok "/opt/app/bin/tool" ∧
    envLinux1.canonical "/opt/app/bin/tool" = .ok cpath0 ∧
    get_executable_path .linux envLinux1 = .ok cpath0 :=
  ⟨rfl, rfl, (c7_linux_algorithm envLinux1).1 "/opt/app/bin/tool" cpath0 rfl rfl⟩

/-- C8: the Windows branch fails exactly when `GetModuleFileNameW` returns
zero or the subsequent canonicalization throws; a nonzero result is never a
failure by itself and is always passed through canonicalization. -/
theorem c8_windows_failure_conditions (env : Env) :
    (env.moduleLen = 0 →
       get_executable_path .windows env =
         .error (PathMasterError ("Failed to canonicalize the path on Windows: " ++
           PathMasterError "Failed to get the executable path on Windows"))) ∧
    (env.moduleLen ≠ 0 →
       (∀ p, env.canonical env.moduleStr = .ok p →
          get_executable_path .windows env = .ok p) ∧
       (∀ w, env.canonical env.moduleStr = .error w →
          get_executable_path .windows env =
            .error (PathMasterError ("Failed to canonicalize the path on Windows: " ++ w)))) := by
  constructor
  · intro hl
    exact rethrow_error_of _ _ _ (windows_attempt_zero env hl)
  · intro hl
    constructor
    · intro p hp
      exact (rethrow_ok_iff _ _ _).mpr ((windows_attempt_pos env hl).trans hp)
    · intro w hw
      exact rethrow_error_of _ _ _ ((windows_attempt_pos env hl).trans hw)

/-- Witness for C8 at a concrete zero-length API result. -/
theorem c8_witness :
    envWinZero.moduleLen = 0 ∧
    get_executable_path .windows envWinZero =
      .error (PathMasterError ("Failed to canonicalize the path on Windows: " ++
        PathMasterError "Failed to get the executable path on Windows")) :=
  ⟨rfl, (c8_windows_failure_conditions envWinZero).1 rfl⟩

/-- C9: the operation keeps no internal state — its result is a function of
the oracles the selected branch consults, so two calls made against the same
unmodified OS and filesystem state return equal results. -/
theorem c9_deterministic (plat : Platform) (e1 e2 : Env)
    (h : relevantOracles plat e1 e2) :
    get_executable_path plat e1 = get_executable_path plat e2 :=
  get_depends_only_on_oracles plat e1 e2 h

/-- Witness for C9: two environments differing only in a field the Linux
branch never reads yield the same result. -/
theorem c9_witness :
    relevantOracles .linux envLinux1 envIrrelevant ∧
    get_executable_path .linux envLinux1 = get_executable_path .linux envIrrelevant :=
  ⟨⟨rfl, rfl⟩, c9_deterministic .linux envLinux1 envIrrelevant ⟨rfl, rfl⟩⟩

/-- C10: every error thrown carries the literal prefix "PathMasterError: "
prepended by the `PathMasterError` constructor, and on the Apple and Windows
branches an internally thrown `PathMasterError` is re-caught and re-wrapped,
yielding a message containing that prefix twice. -/
theorem c10_prefix_and_double_wrap :
    (∀ plat env m, get_executable_path plat env = .error m →
       ∃ r, m = "PathMasterError: " ++ r) ∧
    (∀ env : Env, ∀ required r2, env.nsGet 0 PATH_MAX = .tooSmall required →
       env.nsGet 1 required = .tooSmall r2 →
       get_executable_path .apple env =
         .error ("PathMasterError: " ++ ("Failed to canonicalize the path on MacOS: " ++
           ("PathMasterError: " ++
             "Failed to get the executable path on MacOS after resizing the buffer")))) ∧
    (∀ env : Env, env.moduleLen = 0 →
       get_executable_path .windows env =
         .error ("PathMasterError: " ++ ("Failed to canonicalize the path on Windows: " ++
           ("PathMasterError: " ++ "Failed to get the executable path on Windows")))) := by
  refine ⟨?_, ?_, ?_⟩
  · intro plat env m h
    exact error_prefixed plat env m h
  · intro env required r2 h0 h1
    exact rethrow_error_of _ _ _ (apple_attempt_both_fail env required r2 h0 h1)
  · intro env hl
    exact rethrow_error_of _ _ _ (windows_attempt_zero env hl)

/-- Witness for C10 at a concrete zero-length Windows API result. -/
theorem c10_witness :
    envWinZero.moduleLen = 0 ∧
    get_executable_path .windows envWinZero =
      .error ("PathMasterError: " ++ ("Failed to canonicalize the path on Windows: " ++
        ("PathMasterError: " ++ "Failed to get the executable path on Windows"))) :=
  ⟨rfl, c10_prefix_and_double_wrap.2.2 envWinZero rfl⟩

end Pathmaster
